import Mathlib

/-!
# FreshCart recommendation engine — verification development

Shallow embedding of the FreshCart recommender (`utils/data_prep.py`,
`utils/recommender.py`) and proofs about it.

Modelling conventions:
* A pandas DataFrame/Series keyed by strings is embedded as a Lean function
  out of `String` together with an explicit index list; entries outside the
  index are the fill value (0).
* Python floats are embedded as exact rationals `ℚ`; the one place where a
  float operation has no finite result (division of a zero row total,
  `0.0 / 0.0 = NaN`) is embedded as `Option ℚ` with `none` standing for the
  non-finite value.
* `pandas.sort_values(ascending=False)` uses an unstable quicksort whose tie
  order is unspecified; it is embedded as a deterministic stable insertion
  sort, a valid refinement.  No theorem below depends on tie order.
* `list(set(...))` and dict/set iteration orders are unspecified in Python;
  they are embedded as first-occurrence-order `dedup`, again a deterministic
  refinement, and no theorem below depends on the chosen order.
-/

/-- One row of the transaction CSV: `{CustomerID, Date, Product}`
(`utils/data_prep.py`, `load_data`).  Dates are opaque grouping keys. -/
structure Transaction where
  customerId : String
  date : String
  product : String
deriving DecidableEq

/-- The (customer, date) basket keys, in first-occurrence order
(pandas `groupby(['CustomerID', 'Date'])` sorts keys; only the multiset of
baskets matters to everything below). -/
def basketKeys (ts : List Transaction) : List (String × String) :=
  (ts.map (fun t => (t.customerId, t.date))).dedup

/-- The ordered product list of one (customer, date) basket:
`groupby` preserves the original row order inside each group. -/
def basketProducts (ts : List Transaction) (k : String × String) : List String :=
  (ts.filter (fun t => t.customerId = k.1 ∧ t.date = k.2)).map (fun t => t.product)

/-- `DataProcessor.get_basket_data`: group transactions by (customer, date)
into ordered product lists (duplicates kept). -/
def get_basket_data (ts : List Transaction) : List (List String) :=
  (basketKeys ts).map (basketProducts ts)

/-- Number of ordered index pairs `(i, j)` with `i ≠ j`, `l[i] = a`,
`l[j] = b` — the contribution of one basket to entry `(a, b)` of the
co-occurrence matrix (the double `enumerate` loop of
`get_product_cooccurrence_matrix`). -/
def pairCount (l : List String) (a b : String) : ℕ :=
  Finset.sum (Finset.range l.length) fun i =>
    Finset.sum (Finset.range l.length) fun j =>
      if i ≠ j ∧ l.getD i "" = a ∧ l.getD j "" = b then 1 else 0

/-- `DataProcessor.get_product_cooccurrence_matrix`: entry `(a, b)` of the
co-occurrence matrix, summed over all baskets.  Entries outside the
product index are 0, matching the DataFrame initialised to 0. -/
def get_product_cooccurrence_matrix (ts : List Transaction) (a b : String) : ℕ :=
  ((get_basket_data ts).map (fun l => pairCount l a b)).sum

/-- The product index of the co-occurrence matrix:
`unique_products = list(set(all_products))` over the flattened baskets
(first-occurrence order standing in for Python's unspecified set order). -/
def uniqueProducts (ts : List Transaction) : List String :=
  (get_basket_data ts).flatten.dedup

/-- `product_counts = self.product_cooccurrence_matrix.sum(axis=1)`:
the row total of product `p` across all matrix columns
(`FreshCartRecommender._calculate_product_similarity`). -/
def rowTotal (ts : List Transaction) (p : String) : ℕ :=
  ((uniqueProducts ts).map (fun q => get_product_cooccurrence_matrix ts p q)).sum

/-- NumPy float division of a nonnegative count by a row total, as performed
entrywise by `DataFrame.div(product_counts, axis=0)`: a finite rational when
the divisor is nonzero, and a non-finite value when the divisor is zero
(`0.0 / 0.0 = NaN`; warnings are suppressed module-wide).  `none` models the
non-finite result. -/
def floatDiv (x y : ℕ) : Option ℚ :=
  if y = 0 then none else some ((x : ℚ) / (y : ℚ))

/-- Entry `(p, q)` of `normalized_matrix` in
`FreshCartRecommender._calculate_product_similarity`. -/
def normalizedEntry (ts : List Transaction) (p q : String) : Option ℚ :=
  floatDiv (get_product_cooccurrence_matrix ts p q) (rowTotal ts p)

/-- Stable insertion step for descending sort by `key`; embeds
`pandas.sort_values(ascending=False)` (see module conventions). -/
def insertDescBy {α β : Type} [LinearOrder β] (key : α → β) (a : α) :
    List α → List α
  | [] => [a]
  | b :: l => if key b < key a then a :: b :: l else b :: insertDescBy key a l

/-- Stable descending sort by `key`. -/
def sortDescBy {α β : Type} [LinearOrder β] (key : α → β) : List α → List α
  | [] => []
  | a :: l => insertDescBy key a (sortDescBy key l)

theorem mem_insertDescBy {α β : Type} [LinearOrder β] (key : α → β)
    (a x : α) (l : List α) : x ∈ insertDescBy key a l ↔ x = a ∨ x ∈ l := by
  induction l with
  | nil => simp [insertDescBy]
  | cons b l ih =>
    simp only [insertDescBy]
    split
    · simp [List.mem_cons]
    · simp only [List.mem_cons, ih]
      tauto

theorem mem_sortDescBy {α β : Type} [LinearOrder β] (key : α → β)
    (x : α) (l : List α) : x ∈ sortDescBy key l ↔ x ∈ l := by
  induction l with
  | nil => simp [sortDescBy]
  | cons a l ih => simp [sortDescBy, mem_insertDescBy, ih]

theorem pairwise_insertDescBy {α β : Type} [LinearOrder β] (key : α → β)
    (a : α) (l : List α) (h : l.Pairwise (fun x y => key y ≤ key x)) :
    (insertDescBy key a l).Pairwise (fun x y => key y ≤ key x) := by
  induction l with
  | nil => simp [insertDescBy]
  | cons b l ih =>
    rw [List.pairwise_cons] at h
    obtain ⟨hb, hl⟩ := h
    simp only [insertDescBy]
    split
    · rename_i hlt
      refine List.Pairwise.cons ?_ (List.Pairwise.cons hb hl)
      intro y hy
      rcases List.mem_cons.mp hy with rfl | hy
      · exact le_of_lt hlt
      · exact le_trans (hb y hy) (le_of_lt hlt)
    · rename_i hnlt
      refine List.Pairwise.cons ?_ (ih hl)
      intro y hy
      rcases (mem_insertDescBy key a y l).mp hy with rfl | hy
      · exact not_lt.mp hnlt
      · exact hb y hy

theorem pairwise_sortDescBy {α β : Type} [LinearOrder β] (key : α → β)
    (l : List α) :
    (sortDescBy key l).Pairwise (fun x y => key y ≤ key x) := by
  induction l with
  | nil => exact List.Pairwise.nil
  | cons a l ih => exact pairwise_insertDescBy key a _ ih

theorem pairCount_symm (l : List String) (a b : String) :
    pairCount l a b = pairCount l b a := by
  unfold pairCount
  rw [Finset.sum_comm]
  refine Finset.sum_congr rfl fun x _ => Finset.sum_congr rfl fun y _ => ?_
  have h : (y ≠ x ∧ l.getD y "" = a ∧ l.getD x "" = b) ↔
      (x ≠ y ∧ l.getD x "" = b ∧ l.getD y "" = a) := by
    constructor <;> rintro ⟨h1, h2, h3⟩ <;> exact ⟨Ne.symm h1, h3, h2⟩
  exact if_congr h rfl rfl

theorem pairCount_diag_zero (l : List String) (p : String) (h : l.Nodup) :
    pairCount l p p = 0 := by
  unfold pairCount
  refine Finset.sum_eq_zero fun i hi => Finset.sum_eq_zero fun j hj => ?_
  rw [Finset.mem_range] at hi hj
  rw [if_neg]
  rintro ⟨hij, ha, hb⟩
  apply hij
  rw [List.getD_eq_getElem l "" hi] at ha
  rw [List.getD_eq_getElem l "" hj] at hb
  have : l[i] = l[j] := ha.trans hb.symm
  exact (List.Nodup.getElem_inj_iff h).mp this

/-- Example transaction set used as the concrete fixture throughout:
baskets `["A", "B"]`, `["A"]`, `["D"]`; product "D" occurs only in a
singleton basket, so its co-occurrence row is all zero; customers
"c1" (products A, B) and "c2" (product D) have disjoint purchases. -/
def exTs : List Transaction :=
  [⟨"c1", "d1", "A"⟩, ⟨"c1", "d1", "B"⟩, ⟨"c1", "d2", "A"⟩, ⟨"c2", "d1", "D"⟩]

/-- A transaction set whose single basket contains the same product twice. -/
def dupTs : List Transaction :=
  [⟨"c", "d", "A"⟩, ⟨"c", "d", "A"⟩]

example : get_basket_data exTs = [["A", "B"], ["A"], ["D"]] := by decide
example : get_product_cooccurrence_matrix exTs "A" "B" = 1 := by decide
example : get_product_cooccurrence_matrix dupTs "A" "A" = 2 := by decide
example : rowTotal exTs "D" = 0 := by decide

/-- One recommendation entry: the dict
`{'product': ..., 'score': ..., 'method': ...}` built by every strategy in
`utils/recommender.py`.  Scores (Python ints or floats) are embedded as `ℚ`. -/
structure Recommendation where
  product : String
  score : ℚ
  method : String
deriving DecidableEq

/-- A fitted `FreshCartRecommender`.  `fit` stores
`customer_product_matrix` and `product_cooccurrence_matrix` computed by the
`DataProcessor` from the loaded transactions, so those are derived from the
`ts` field below; the two cosine-similarity matrices produced by
`_calculate_product_similarity` / `_calculate_customer_similarity` involve
irrational square roots and are carried as explicit `ℚ`-valued fields
(floats as rationals), with the cosine facts a claim relies on stated as
hypotheses (`CosineFitted`).  `categories` is the `product_categories`
lookup table of the `DataProcessor`. -/
structure Engine where
  ts : List Transaction
  categories : List (String × String)
  productSim : String → String → ℚ
  custSim : String → String → ℚ

/-- The shared index of `product_cooccurrence_matrix` and (after `fit`)
`product_similarity_matrix`: both are indexed by the unique products of the
baskets (`_calculate_product_similarity` reuses `normalized_matrix.index`). -/
def Engine.products (E : Engine) : List String :=
  uniqueProducts E.ts

/-- The row index of `customer_product_matrix`
(`groupby(['CustomerID', 'Product'])` keeps every customer with at least one
transaction). -/
def Engine.customers (E : Engine) : List String :=
  (E.ts.map (fun t => t.customerId)).dedup

/-- The set of products with entry 1 in customer `c`'s row of the binary
`customer_product_matrix` — the products the customer ever bought. -/
def Engine.purchased (E : Engine) (c : String) : List String :=
  ((E.ts.filter (fun t => t.customerId = c)).map (fun t => t.product)).dedup

/-- `self.product_categories.get(p)`: dict lookup returning Python `None`
(`Option.none`) for a missing product. -/
def lookupCategory (cats : List (String × String)) (p : String) : Option String :=
  (cats.find? (fun e => e.1 = p)).map (fun e => e.2)

/-- One row of the `get_product_stats` DataFrame (the columns the
recommender reads: the product index, `TotalTransactions`, `Category`). -/
structure ProdStat where
  product : String
  total : ℕ
  category : Option String
deriving DecidableEq

/-- `TotalTransactions` for one product: `groupby('Product')` row count. -/
def transactionCount (ts : List Transaction) (p : String) : ℕ :=
  (ts.filter (fun t => t.product = p)).length

/-- `DataProcessor.get_product_stats`: per-product statistics sorted by
`TotalTransactions` descending.  (Date columns and
`AvgTransactionsPerCustomer` are never read by the recommender and are
omitted.) -/
def get_product_stats (ts : List Transaction) (cats : List (String × String)) :
    List ProdStat :=
  sortDescBy (fun s => s.total)
    ((ts.map (fun t => t.product)).dedup.map
      (fun p => ⟨p, transactionCount ts p, lookupCategory cats p⟩))

/-- The `if category:` filter of `get_popular_products`: Python truthiness
makes both `None` and the empty string skip the filter; a missing (`NaN`)
category compares unequal to every string. -/
def filterByCategory (stats : List ProdStat) (category : Option String) :
    List ProdStat :=
  match category with
  | none => stats
  | some c => if c = "" then stats else stats.filter (fun s => s.category = some c)

theorem filterByCategory_sublist (stats : List ProdStat)
    (category : Option String) :
    (filterByCategory stats category).Sublist stats := by
  unfold filterByCategory
  cases category with
  | none => exact List.Sublist.refl stats
  | some c =>
    show (if c = "" then stats
      else stats.filter (fun s => s.category = some c)).Sublist stats
    split
    · exact List.Sublist.refl stats
    · exact List.filter_sublist stats

/-- `FreshCartRecommender.get_popular_products`: rank by transaction count
(optionally filtered by category first), take `n`, label every entry
`"popularity"`. -/
def Engine.get_popular_products (E : Engine) (n : ℕ) (category : Option String) :
    List Recommendation :=
  let stats := filterByCategory (get_product_stats E.ts E.categories) category
  (stats.take n).map (fun s => ⟨s.product, (s.total : ℚ), "popularity"⟩)

/-- `FreshCartRecommender._get_cooccurrence_recommendations`: sort the
product's co-occurrence column descending, drop the product itself, take
`n`, keep only positive counts, label `"cooccurrence"`. -/
def Engine.get_cooccurrence_recommendations (E : Engine) (p : String) (n : ℕ) :
    List Recommendation :=
  let col := sortDescBy (fun x => x.2)
    (E.products.map (fun q => (q, get_product_cooccurrence_matrix E.ts q p)))
  let col := (col.filter (fun x => x.1 ≠ p)).take n
  (col.filter (fun x => 0 < x.2)).map
    (fun x => ⟨x.1, (x.2 : ℚ), "cooccurrence"⟩)

/-- `FreshCartRecommender._get_similarity_recommendations`: sort the
product's similarity column descending, drop the product itself, take `n`,
label `"similarity"` (no positivity filter here). -/
def Engine.get_similarity_recommendations (E : Engine) (p : String) (n : ℕ) :
    List Recommendation :=
  let col := sortDescBy (fun x => x.2)
    (E.products.map (fun q => (q, E.productSim q p)))
  ((col.filter (fun x => x.1 ≠ p)).take n).map
    (fun x => ⟨x.1, x.2, "similarity"⟩)

/-- Python dict insertion keyed on `product`: keep the first entry for each
product name (`all_recs` in `_get_hybrid_recommendations`). -/
def dedupByProduct : List Recommendation → List String → List Recommendation
  | [], _ => []
  | r :: rs, seen =>
    if r.product ∈ seen then dedupByProduct rs seen
    else r :: dedupByProduct rs (r.product :: seen)

/-- `FreshCartRecommender._get_hybrid_recommendations`: ask co-occurrence
for `n * 2` candidates; if that already yields at least `n`, return its
first `n` unchanged (their `method` stays `"cooccurrence"`); otherwise merge
with similarity results (first occurrence per product wins), truncate to
`n`, and relabel everything `"hybrid"`. -/
def Engine.get_hybrid_recommendations (E : Engine) (p : String) (n : ℕ) :
    List Recommendation :=
  let co := E.get_cooccurrence_recommendations p (n * 2)
  if n ≤ co.length then co.take n
  else
    let sim := E.get_similarity_recommendations p n
    let merged := dedupByProduct (co ++ sim) []
    (merged.take n).map (fun r => { r with method := "hybrid" })

/-- `FreshCartRecommender.get_product_recommendations`: empty for a product
absent from the product-similarity index, else dispatch on the method
string (anything other than `"similarity"`/`"cooccurrence"` is hybrid). -/
def Engine.get_product_recommendations (E : Engine) (p : String) (n : ℕ)
    (method : String) : List Recommendation :=
  if p ∈ E.products then
    if method = "similarity" then E.get_similarity_recommendations p n
    else if method = "cooccurrence" then E.get_cooccurrence_recommendations p n
    else E.get_hybrid_recommendations p n
  else []

/-- `scores[p] += v` on a Python dict embedded as an insertion-ordered
association list (`product_scores` / `all_recommendations`). -/
def addScore (scores : List (String × ℚ)) (p : String) (v : ℚ) :
    List (String × ℚ) :=
  if scores.any (fun x => x.1 = p) then
    scores.map (fun x => if x.1 = p then (x.1, x.2 + v) else x)
  else scores ++ [(p, v)]

/-- The top-5 most similar other customers with their similarities:
`customer_similarity_matrix[customer_id]` sorted descending, self dropped,
first 5 kept. -/
def Engine.neighborSims (E : Engine) (c : String) : List (String × ℚ) :=
  ((sortDescBy (fun x => x.2)
      (E.customers.map (fun c2 => (c2, E.custSim c2 c)))).filter
    (fun x => x.1 ≠ c)).take 5

/-- Body of the neighbor loop in `get_customer_recommendations`: skip a
neighbor with similarity below 0.2 (the float literal `0.2`, within 2⁻⁵⁴ of
`mkRat 1 5`; no claim distinguishes the two), otherwise add its similarity
to every product it bought that customer `c` has not. -/
def Engine.collabStep (E : Engine) (c : String) (acc : List (String × ℚ))
    (x : String × ℚ) : List (String × ℚ) :=
  if x.2 < mkRat 1 5 then acc
  else (E.purchased x.1).foldl
    (fun acc2 p => if p ∈ E.purchased c then acc2 else addScore acc2 p x.2) acc

/-- The accumulated `product_scores` dict of
`get_customer_recommendations`. -/
def Engine.collabScores (E : Engine) (c : String) : List (String × ℚ) :=
  (E.neighborSims c).foldl (E.collabStep c) []

/-- `FreshCartRecommender.get_customer_recommendations`: empty for an
unknown customer; popularity fallback when no product accumulated a score;
otherwise scores sorted descending, top `n`, labeled `"collaborative"`. -/
def Engine.get_customer_recommendations (E : Engine) (c : String) (n : ℕ) :
    List Recommendation :=
  if c ∈ E.customers then
    let scores := E.collabScores c
    if scores.isEmpty then E.get_popular_products n none
    else ((sortDescBy (fun x => x.2) scores).take n).map
      (fun x => ⟨x.1, x.2, "collaborative"⟩)
  else []

/-- Body of the basket loop in `get_basket_recommendations`: for a basket
product present in the co-occurrence matrix, add the counts of its top 5
co-occurring partners (self dropped, basket members skipped) into the
accumulator; an unknown product contributes nothing. -/
def Engine.basketStep (E : Engine) (basket : List String)
    (acc : List (String × ℚ)) (p : String) : List (String × ℚ) :=
  if p ∈ E.products then
    (((sortDescBy (fun x => x.2)
          (E.products.map (fun q => (q, get_product_cooccurrence_matrix E.ts q p)))).filter
        (fun x => x.1 ≠ p)).take 5).foldl
      (fun acc2 x => if x.1 ∈ basket then acc2 else addScore acc2 x.1 (x.2 : ℚ)) acc
  else acc

/-- The accumulated `all_recommendations` dict of
`get_basket_recommendations`, over the (already truncated) basket. -/
def Engine.basketScores (E : Engine) (basket : List String) :
    List (String × ℚ) :=
  basket.foldl (E.basketStep basket) []

/-- `FreshCartRecommender.get_basket_recommendations`: empty for an empty
basket; otherwise truncate the basket to 3 products, accumulate
co-occurrence scores, fall back to popularity when nothing accumulated,
else sort descending, take `n`, label `"basket_hybrid"`. -/
def Engine.get_basket_recommendations (E : Engine) (basket : List String)
    (n : ℕ) : List Recommendation :=
  if basket.isEmpty then []
  else
    let b := basket.take 3
    let scores := E.basketScores b
    if scores.isEmpty then E.get_popular_products n none
    else ((sortDescBy (fun x => x.2) scores).take n).map
      (fun x => ⟨x.1, x.2, "basket_hybrid"⟩)

/-- One explanation produced by `explain_recommendation`, with the data it
interpolates into its f-string (numeric display formatting is presentation
only and not modelled). -/
inductive Reason where
  | boughtTogether (count : ℕ)
  | similar (sim : ℚ)
  | sameCategory (cat : Option String)
  | generalPopularity
deriving DecidableEq

/-- The f-string of the same-category reason,
`f"Same category: {categories.get(product)}"`: Python renders a missing
(`None`) category as the four characters `None`. -/
def categoryReasonString (cat : Option String) : String :=
  "Same category: " ++ (match cat with | none => "None" | some c => c)

/-- `FreshCartRecommender.explain_recommendation`: co-occurrence, similarity
and category checks in order (the index guards of the first two are the
membership conjuncts); the category reason fires whenever the two dict
lookups agree — also when both return `None`.  A generic fallback when no
check fires. -/
def Engine.explain_recommendation (E : Engine) (p r : String) : List Reason :=
  let e1 := if p ∈ E.products ∧ r ∈ E.products ∧
      0 < get_product_cooccurrence_matrix E.ts p r then
    [Reason.boughtTogether (get_product_cooccurrence_matrix E.ts p r)] else []
  let e2 := if p ∈ E.products ∧ r ∈ E.products ∧ mkRat 3 10 < E.productSim p r then
    [Reason.similar (E.productSim p r)] else []
  let e3 := if lookupCategory E.categories p = lookupCategory E.categories r then
    [Reason.sameCategory (lookupCategory E.categories p)] else []
  let es := e1 ++ e2 ++ e3
  if es.isEmpty then [Reason.generalPopularity] else es

/-- The one fact about `_calculate_customer_similarity` the claims rely on:
cosine similarity of two rows of the binary interaction matrix is 0 whenever
their supports are disjoint (zero dot product; sklearn's
`cosine_similarity` also returns 0 when a row is all zero). -/
def Engine.CosineFitted (E : Engine) : Prop :=
  ∀ c1 ∈ E.customers, ∀ c2 ∈ E.customers,
    (∀ p, p ∈ E.purchased c1 → p ∉ E.purchased c2) → E.custSim c1 c2 = 0

/-- The fixture engine over `exTs`.  `custSim` is the true cosine matrix of
this data (the two customers' purchases are disjoint, so off-diagonal
cosines are 0); `productSim` is unconstrained by any claim and set to 0. -/
def exE : Engine where
  ts := exTs
  categories := [("A", "Cat1")]
  productSim := fun _ _ => 0
  custSim := fun a b => if a = b then 1 else 0

example : exE.products = ["B", "A", "D"] := by decide
example : exE.customers = ["c1", "c2"] := by decide
example : exE.purchased "c1" = ["B", "A"] := by decide
example : exE.get_popular_products 1 none =
    [⟨"A", 2, "popularity"⟩] := by decide
example : exE.get_popular_products 1 (some "Cat1") =
    [⟨"A", 2, "popularity"⟩] := by decide
example : exE.get_cooccurrence_recommendations "A" 2 =
    [⟨"B", 1, "cooccurrence"⟩] := by decide
example : exE.get_product_recommendations "A" 1 "hybrid" =
    [⟨"B", 1, "cooccurrence"⟩] := by decide
example : exE.collabScores "c2" = [] := by decide
example : exE.get_customer_recommendations "c2" 2 =
    exE.get_popular_products 2 none := by decide
example : exE.get_basket_recommendations [] 1 = [] := by decide
example : exE.get_basket_recommendations ["Z"] 1 =
    exE.get_popular_products 1 none := by decide
example : exE.CosineFitted := by unfold Engine.CosineFitted; decide
example : Reason.sameCategory none ∈ exE.explain_recommendation "B" "D" := by
  decide

theorem mem_get_product_stats (ts : List Transaction)
    (cats : List (String × String)) (s : ProdStat)
    (hs : s ∈ get_product_stats ts cats) :
    s.total = transactionCount ts s.product := by
  unfold get_product_stats at hs
  rw [mem_sortDescBy, List.mem_map] at hs
  obtain ⟨p, _, rfl⟩ := hs
  rfl

theorem mem_popular_method (E : Engine) (n : ℕ) (cat : Option String)
    (r : Recommendation) (hr : r ∈ E.get_popular_products n cat) :
    r.method = "popularity" := by
  simp only [Engine.get_popular_products, List.mem_map] at hr
  obtain ⟨s, _, rfl⟩ := hr
  rfl

theorem mem_cooccurrence_method (E : Engine) (p : String) (n : ℕ)
    (r : Recommendation) (hr : r ∈ E.get_cooccurrence_recommendations p n) :
    r.method = "cooccurrence" := by
  simp only [Engine.get_cooccurrence_recommendations, List.mem_map] at hr
  obtain ⟨x, _, rfl⟩ := hr
  rfl

theorem neighborSims_mem (E : Engine) (c : String) (x : String × ℚ)
    (hx : x ∈ E.neighborSims c) :
    x.1 ∈ E.customers ∧ x.1 ≠ c ∧ x.2 = E.custSim x.1 c := by
  unfold Engine.neighborSims at hx
  have hx' := List.take_subset _ _ hx
  rw [List.mem_filter] at hx'
  obtain ⟨hmem, hne⟩ := hx'
  rw [mem_sortDescBy, List.mem_map] at hmem
  obtain ⟨c2, hc2, rfl⟩ := hmem
  exact ⟨hc2, by simpa using hne, rfl⟩

theorem collab_foldl_skip (E : Engine) (c : String) (ns : List (String × ℚ)) :
    ∀ acc, (∀ x ∈ ns, x.2 < mkRat 1 5) → ns.foldl (E.collabStep c) acc = acc := by
  induction ns with
  | nil => intro acc _; rfl
  | cons x l ih =>
    intro acc h
    rw [List.foldl_cons]
    have hx := h x (List.mem_cons_self x l)
    have hstep : E.collabStep c acc x = acc := by
      unfold Engine.collabStep
      rw [if_pos hx]
    rw [hstep]
    exact ih acc fun y hy => h y (List.mem_cons_of_mem x hy)

/-- C8: for every input transaction set, the co-occurrence matrix built by
`get_product_cooccurrence_matrix` is symmetric:
`cooc[a][b] == cooc[b][a]` for every pair of products. -/
theorem cooc_symmetric (ts : List Transaction) (a b : String) :
    get_product_cooccurrence_matrix ts a b =
      get_product_cooccurrence_matrix ts b a := by
  unfold get_product_cooccurrence_matrix
  have h : (fun l => pairCount l a b) = fun l => pairCount l b a :=
    funext fun l => pairCount_symm l a b
  rw [h]

/-- C4 counterexample: a transaction set whose single basket holds the same
product twice (`dupTs`) produces co-occurrence diagonal entry 2, not 0 —
the `i ≠ j` guard compares positions, not product names. -/
theorem cooc_diagonal_duplicate_cex :
    get_product_cooccurrence_matrix dupTs "A" "A" = 2 ∧
    get_product_cooccurrence_matrix dupTs "A" "A" ≠ 0 := by decide

/-- C4 amended: the co-occurrence matrix has a zero diagonal for every
transaction set in which no basket contains the same product name twice. -/
theorem cooc_diagonal_zero_of_nodup (ts : List Transaction) (p : String)
    (h : ∀ l ∈ get_basket_data ts, l.Nodup) :
    get_product_cooccurrence_matrix ts p p = 0 := by
  unfold get_product_cooccurrence_matrix
  apply List.sum_eq_zero
  intro x hx
  rw [List.mem_map] at hx
  obtain ⟨l, hl, rfl⟩ := hx
  exact pairCount_diag_zero l p (h l hl)

theorem cooc_diagonal_zero_of_nodup_witness :
    (∀ l ∈ get_basket_data exTs, l.Nodup) ∧
    get_product_cooccurrence_matrix exTs "A" "A" = 0 :=
  ⟨by decide, cooc_diagonal_zero_of_nodup exTs "A" (by decide)⟩

/-- C2 counterexample: in `exTs`, product "D" has co-occurrence row total 0,
and its normalized row entries are the non-finite result of `0.0 / 0.0`
(`none`), not the finite zero the claim asserts. -/
theorem zero_row_normalization_nan_cex :
    rowTotal exTs "D" = 0 ∧ normalizedEntry exTs "D" "A" = none ∧
    normalizedEntry exTs "D" "A" ≠ some 0 := by decide

/-- C2 amended: for every product whose total co-occurrence count across all
partners is zero, every entry of its normalized row is the non-finite value
produced by dividing by the zero row total (NaN, modelled `none`) — not a
zero vector. -/
theorem zero_total_row_normalizes_to_none (ts : List Transaction) (p : String)
    (h : rowTotal ts p = 0) (q : String) :
    normalizedEntry ts p q = none := by
  simp [normalizedEntry, floatDiv, h]

theorem zero_total_row_normalizes_to_none_witness :
    rowTotal exTs "D" = 0 ∧ normalizedEntry exTs "D" "B" = none :=
  ⟨by decide, zero_total_row_normalizes_to_none exTs "D" (by decide) "B"⟩

/-- C1 counterexample: on the fixture engine the basket strategy returns the
empty list for an empty basket, while the global popularity list truncated
to 1 is nonempty — the guard `if not basket_products: return []` fires
before any popularity fallback. -/
theorem basket_empty_input_cex :
    exE.get_basket_recommendations [] 1 = [] ∧
    exE.get_popular_products 1 none ≠ [] := by decide

/-- C1 amended: for every fitted engine and every n, the basket strategy
called with an empty product list returns the empty list (the popularity
fallback fires only for a nonempty basket that accumulates no candidates). -/
theorem basket_empty_input_returns_empty (E : Engine) (n : ℕ) :
    E.get_basket_recommendations [] n = [] := rfl

/-- C5: for every fitted engine, a query for a product absent from the
product-similarity index returns the empty list (for every method string),
and a query for a customer absent from the customer-product matrix returns
the empty list; neither raises. -/
theorem unknown_entity_returns_empty (E : Engine) (p c : String) (n : ℕ)
    (method : String) (hp : p ∉ E.products) (hc : c ∉ E.customers) :
    E.get_product_recommendations p n method = [] ∧
    E.get_customer_recommendations c n = [] := by
  constructor
  · unfold Engine.get_product_recommendations
    rw [if_neg hp]
  · unfold Engine.get_customer_recommendations
    rw [if_neg hc]

theorem unknown_entity_returns_empty_witness :
    ("Z" ∉ exE.products ∧ "z9" ∉ exE.customers) ∧
    exE.get_product_recommendations "Z" 5 "hybrid" = [] ∧
    exE.get_customer_recommendations "z9" 5 = [] :=
  ⟨by decide,
    unknown_entity_returns_empty exE "Z" "z9" 5 "hybrid" (by decide) (by decide)⟩

/-- C3 counterexample: on the fixture engine, co-occurrence already yields
enough results for n = 1, and the hybrid strategy returns them with
`method = "cooccurrence"` — the early-return path never relabels to
`"hybrid"` (the relabel loop runs only on the merge path). -/
theorem hybrid_label_cex :
    (exE.get_product_recommendations "A" 1 "hybrid").map Recommendation.method
      = ["cooccurrence"] ∧ ("cooccurrence" : String) ≠ "hybrid" := by decide

/-- C3 amended: whenever the co-occurrence strategy yields at least n
results when asked for 2n candidates, the hybrid strategy returns exactly
those top n co-occurrence entries — same products, same order, same
scores — but with every entry's method field still `"cooccurrence"`, not
`"hybrid"`. -/
theorem hybrid_degrades_to_cooccurrence (E : Engine) (p : String) (n : ℕ)
    (hp : p ∈ E.products)
    (h : n ≤ (E.get_cooccurrence_recommendations p (n * 2)).length) :
    E.get_product_recommendations p n "hybrid"
      = (E.get_cooccurrence_recommendations p (n * 2)).take n ∧
    ∀ r ∈ E.get_product_recommendations p n "hybrid",
      r.method = "cooccurrence" := by
  have heq : E.get_product_recommendations p n "hybrid"
      = (E.get_cooccurrence_recommendations p (n * 2)).take n := by
    unfold Engine.get_product_recommendations
    rw [if_pos hp, if_neg (by decide), if_neg (by decide)]
    unfold Engine.get_hybrid_recommendations
    rw [if_pos h]
  refine ⟨heq, ?_⟩
  intro r hr
  rw [heq] at hr
  exact mem_cooccurrence_method E p (n * 2) r (List.take_subset _ _ hr)

theorem hybrid_degrades_to_cooccurrence_witness :
    ("A" ∈ exE.products ∧
      1 ≤ (exE.get_cooccurrence_recommendations "A" (1 * 2)).length) ∧
    exE.get_product_recommendations "A" 1 "hybrid"
      = (exE.get_cooccurrence_recommendations "A" (1 * 2)).take 1 :=
  ⟨by decide,
    (hybrid_degrades_to_cooccurrence exE "A" 1 (by decide) (by decide)).1⟩

/-- C6: for every fitted engine (cosine customer similarities) and n, the
collaborative strategy applied to a known customer whose purchased-product
set is disjoint from every other customer's returns exactly the global
popularity list truncated to n: every neighbor's similarity is 0 < 0.2, so
no product accumulates a score and the popularity fallback fires. -/
theorem isolated_customer_popularity_fallback (E : Engine) (c : String)
    (n : ℕ) (hfit : E.CosineFitted) (hc : c ∈ E.customers)
    (hiso : ∀ c2 ∈ E.customers, c2 ≠ c →
      ∀ p, p ∈ E.purchased c2 → p ∉ E.purchased c) :
    E.get_customer_recommendations c n = E.get_popular_products n none := by
  have hskip : ∀ x ∈ E.neighborSims c, x.2 < mkRat 1 5 := by
    intro x hx
    obtain ⟨hmem, hne, hval⟩ := neighborSims_mem E c x hx
    have hzero : E.custSim x.1 c = 0 :=
      hfit x.1 hmem c hc (hiso x.1 hmem hne)
    rw [hval, hzero]
    decide
  have hnil : E.collabScores c = [] := by
    unfold Engine.collabScores
    exact collab_foldl_skip E c _ [] hskip
  unfold Engine.get_customer_recommendations
  rw [if_pos hc]
  simp [hnil]

theorem isolated_customer_popularity_fallback_witness :
    (exE.CosineFitted ∧ "c2" ∈ exE.customers ∧
      (∀ c2 ∈ exE.customers, c2 ≠ "c2" →
        ∀ p, p ∈ exE.purchased c2 → p ∉ exE.purchased "c2")) ∧
    exE.get_customer_recommendations "c2" 3 = exE.get_popular_products 3 none :=
  ⟨⟨by unfold Engine.CosineFitted; decide, by decide, by decide⟩,
    isolated_customer_popularity_fallback exE "c2" 3
      (by unfold Engine.CosineFitted; decide) (by decide) (by decide)⟩

/-- C7 counterexample: on the fixture engine the popularity strategy called
with a category filter labels its entries `"popularity"`, not
`"category_popularity"` — `get_popular_products` hardcodes the label on
both paths (only the separate `get_category_recommendations` uses
`"category_popularity"`). -/
theorem category_filter_label_cex :
    (exE.get_popular_products 1 (some "Cat1")).map Recommendation.method
      = ["popularity"] ∧
    ("popularity" : String) ≠ "category_popularity" := by decide

/-- C7 amended: every entry returned by the popularity strategy — with or
without a category filter — has method `"popularity"`; entries are ranked
by total transaction count descending with score equal to that count. -/
theorem popular_products_label_and_ranking (E : Engine) (n : ℕ)
    (cat : Option String) :
    (∀ r ∈ E.get_popular_products n cat,
        r.method = "popularity" ∧
        r.score = (transactionCount E.ts r.product : ℚ)) ∧
    (E.get_popular_products n cat).Pairwise
      (fun r1 r2 => r2.score ≤ r1.score) := by
  have hsorted : (get_product_stats E.ts E.categories).Pairwise
      (fun s1 s2 => s2.total ≤ s1.total) := by
    unfold get_product_stats
    exact pairwise_sortDescBy (fun s : ProdStat => s.total) _
  constructor
  · intro r hr
    simp only [Engine.get_popular_products, List.mem_map] at hr
    obtain ⟨s, hs, rfl⟩ := hr
    refine ⟨rfl, ?_⟩
    have hs' : s ∈ get_product_stats E.ts E.categories :=
      (filterByCategory_sublist _ cat).subset (List.take_subset _ _ hs)
    show (s.total : ℚ) = (transactionCount E.ts s.product : ℚ)
    rw [mem_get_product_stats E.ts E.categories s hs']
  · simp only [Engine.get_popular_products]
    rw [List.pairwise_map]
    have hfil := List.Pairwise.sublist (filterByCategory_sublist
      (get_product_stats E.ts E.categories) cat) hsorted
    have htake := List.Pairwise.sublist (List.take_sublist n _) hfil
    exact List.Pairwise.imp (fun hle => Nat.cast_le.mpr hle) htake

theorem reason_mem_result (a b : List Reason) (x y : Reason) :
    x ∈ (if (a ++ b ++ [x]).isEmpty then [y] else a ++ b ++ [x]) := by
  have hne : (a ++ b ++ [x]).isEmpty = false := by simp
  simp [hne]

/-- C9: whenever both product names are absent from the product→category
lookup table, both `dict.get` calls return the default `None`, the equality
check succeeds, and `explain_recommendation` emits the same-category reason
with the missing-category default — rendered by the f-string as the literal
`"Same category: None"`. -/
theorem explain_missing_categories_reason (E : Engine) (p r : String)
    (h1 : lookupCategory E.categories p = none)
    (h2 : lookupCategory E.categories r = none) :
    Reason.sameCategory none ∈ E.explain_recommendation p r ∧
    categoryReasonString none = "Same category: None" := by
  refine ⟨?_, rfl⟩
  simp only [Engine.explain_recommendation, h1, h2, eq_self_iff_true, if_true]
  exact reason_mem_result _ _ _ _

theorem explain_missing_categories_reason_witness :
    (lookupCategory exE.categories "B" = none ∧
      lookupCategory exE.categories "D" = none) ∧
    Reason.sameCategory none ∈ exE.explain_recommendation "B" "D" ∧
    categoryReasonString none = "Same category: None" :=
  ⟨by decide,
    explain_missing_categories_reason exE "B" "D" (by decide) (by decide)⟩

/-- C10: whenever the collaborative strategy (known customer, empty
accumulated `product_scores`) or the basket strategy (nonempty basket,
empty accumulated `all_recommendations`) falls back to popularity, the
returned list is the global popularity list and every entry carries method
`"popularity"` — the fallback is observable through the method field. -/
theorem fallback_entries_labeled_popularity (E : Engine) (c : String)
    (basket : List String) (n : ℕ)
    (hc : c ∈ E.customers) (h1 : E.collabScores c = [])
    (hb : basket ≠ []) (h2 : E.basketScores (basket.take 3) = []) :
    (∀ r ∈ E.get_customer_recommendations c n, r.method = "popularity") ∧
    (∀ r ∈ E.get_basket_recommendations basket n, r.method = "popularity") := by
  have hcust : E.get_customer_recommendations c n
      = E.get_popular_products n none := by
    unfold Engine.get_customer_recommendations
    rw [if_pos hc]
    simp [h1]
  have hbask : E.get_basket_recommendations basket n
      = E.get_popular_products n none := by
    unfold Engine.get_basket_recommendations
    rw [if_neg (by simpa [List.isEmpty_iff] using hb)]
    simp [h2]
  constructor
  · intro r hr
    rw [hcust] at hr
    exact mem_popular_method E n none r hr
  · intro r hr
    rw [hbask] at hr
    exact mem_popular_method E n none r hr

theorem fallback_entries_labeled_popularity_witness :
    ("c2" ∈ exE.customers ∧ exE.collabScores "c2" = [] ∧
      (["Z"] : List String) ≠ [] ∧
      exE.basketScores ((["Z"] : List String).take 3) = []) ∧
    (∀ r ∈ exE.get_customer_recommendations "c2" 2, r.method = "popularity") ∧
    (∀ r ∈ exE.get_basket_recommendations ["Z"] 2, r.method = "popularity") :=
  ⟨by decide,
    fallback_entries_labeled_popularity exE "c2" ["Z"] 2
      (by decide) (by decide) (by decide) (by decide)⟩
